import Mathlib

/-!
Verification model of the mongo external-pillar module
(`src/salt/pillar/mongo.py`).

The module resolves per-minion pillar data from a mongodb collection.  Its
core consists of three functions, embedded below:

* `get_find_one`   (source lines 138-159): single-document lookup with an
  optional field projection and `_id`-to-string normalization;
* `get_aggregate`  (source lines 162-182): pipeline aggregation, prepending
  an implicit match stage and applying a result-arity policy;
* `ext_pillar`     (source lines 185-245): the entry point, performing the
  optional `re.sub` rewrite of the minion id and dispatching to one of the
  two strategies.

Connection bootstrapping (source lines 120-135 and 221-230: `get_connection`,
`authenticate_connection`, database selection) is infrastructural glue with
no decision logic; the external store it produces is modelled by the
`MongoDB` handle parameter, whose two methods are exactly the two store
operations the core invokes.  Python `None` returns are modelled by
`Option`, Python dicts by ordered association lists (keys are unique in any
dict the store can hand back, and no definition below depends on duplicate
keys), and the logging side effect by an explicit list of emitted records.
-/

namespace SaltPillarMongo

/-- BSON-like values stored in mongo documents.  `objectId` is the
store-native unique-identifier type (pymongo `ObjectId`), carried here with
its canonical 24-hex-digit string form; `doc` and `arr` give nested
documents and arrays. -/
inductive BVal where
  | str : String → BVal
  | int : Int → BVal
  | bool : Bool → BVal
  | objectId : String → BVal
  | null : BVal
  | doc : List (String × BVal) → BVal
  | arr : List BVal → BVal

/-- A mongo document / Python dict: an ordered association list. -/
abbrev Doc := List (String × BVal)

/-- Python truthiness test of `str()` output: `six.text_type` (= `str` on
Python 3) applied to a field value.  The scalar cases are exact
(`str(ObjectId(h))` is the hex string `h`, `str(True)` is `"True"`, ...);
the container cases abbreviate the CPython repr, whose exact text no
property below depends on — what matters is that the outcome is text. -/
def text_type : BVal → String
  | .str s => s
  | .int n => toString n
  | .bool b => if b then ("True") else ("False")
  | .objectId s => s
  | .null => ("None")
  | .doc fields => ("<document with ") ++ toString fields.length ++ (" fields>")
  | .arr vs => ("<array of ") ++ toString vs.length ++ (" values>")

/-- Test whether a value is a text (string) value. -/
def is_text : BVal → Bool
  | .str _ => true
  | _ => false

/-- Severity levels of the Python `logging` module used by the source
(`warning` is never emitted by this module but exists in the library). -/
inductive LogLevel where
  | debug
  | info
  | warning
  | error
deriving DecidableEq

/-- One emitted log record: a level and the (constant part of the) format
string passed to the logger. -/
abbrev LogRec := LogLevel × String

/-- The external store handle produced by the out-of-scope bootstrap code.
`find_one c f p` models `mdb[c].find_one(f, projection=p)` (`none` is
Python `None`); `aggregate c p` models the materialized contents of the
cursor returned by `mdb[c].aggregate(p)`. -/
structure MongoDB where
  find_one : String → Doc → Option (List String) → Option Doc
  aggregate : String → List Doc → List Doc

/-- Python truthiness of the value bound to `result` in `get_find_one`:
`None` and the empty dict are falsy. -/
def dict_truthy : Option Doc → Bool
  | none => false
  | some d => !d.isEmpty

/-- Python truthiness of the `fields` argument: `None` and `[]` are falsy. -/
def fields_truthy : Option (List String) → Bool
  | none => false
  | some l => !l.isEmpty

/-- Test `"_id" in result` on a document. -/
def hasKey (d : Doc) (k : String) : Bool :=
  d.any (fun p => p.1 == k)

/-- Read a field of a document (`result["_id"]`): value at the first
occurrence of the key. -/
def getField (d : Doc) (k : String) : Option BVal :=
  (d.find? (fun p => p.1 == k)).map (fun p => p.2)

/-- In-place update `result["_id"] = six.text_type(result["_id"])` of
source line 151: every entry keyed `"_id"` (unique in a Python dict) is
replaced by its text form. -/
def convert_id (d : Doc) : Doc :=
  d.map (fun p => if p.1 == ("_id") then (p.1, BVal.str (text_type p.2)) else p)

/-- Log format strings of the source (arguments interpolated by `%s` are
dropped; no property depends on them). -/
def msg_found_fields : String := "ext_pillar.mongo: found document, returning fields %s"

/-- Log record text of source line 146. -/
def msg_found_whole : String := "ext_pillar.mongo: found document, returning whole doc"

/-- Log record text of source lines 156-158. -/
def msg_no_document : String := "ext_pillar.mongo: no document found in collection %s"

/-- Log record text of source line 172. -/
def msg_no_results : String := "ext_pillar.mongo: pipeline returned no results"

/-- Log record text of source line 176. -/
def msg_multi_results : String := "ext_pillar.mongo: pipeline returned more than one result"

/-- Log record text of source lines 235-239. -/
def msg_looking_up : String := "ext_pillar.mongo: looking up pillar def for %s: %s in mongo"

/-- Model of `get_find_one` (source lines 138-159): issue
`find_one({id_field: minion_id}, projection=fields)`; on a truthy result,
log which shape is returned, convert a present `"_id"` to its string form
and return the document; otherwise log and return the empty dict.  Returns
the document together with the emitted log records. -/
def get_find_one (mdb : MongoDB) (collection id_field minion_id : String)
    (fields : Option (List String)) : Doc × List LogRec :=
  let result := mdb.find_one collection [(id_field, BVal.str minion_id)] fields
  if dict_truthy result then
    let r := result.getD []
    let l1 : LogRec :=
      if fields_truthy fields then (LogLevel.debug, msg_found_fields)
      else (LogLevel.debug, msg_found_whole)
    if hasKey r ("_id") then (convert_id r, [l1]) else (r, [l1])
  else
    ([], [(LogLevel.debug, msg_no_document)])

/-- The implicit first pipeline stage `{"$match": {id_field: minion_id}}`
of source line 164. -/
def match_stage (id_field minion_id : String) : Doc :=
  [(("$match"), BVal.doc [(id_field, BVal.str minion_id)])]

/-- Model of source lines 163-166: start from a list holding the match
stage and append every caller-supplied stage in order
(`for pipe in aggregate: pipeline.append(pipe)`). -/
def build_pipeline (id_field minion_id : String) (aggregate : List Doc) : List Doc :=
  aggregate.foldl (fun pipeline pipe => pipeline ++ [pipe]) [match_stage id_field minion_id]

/-- Model of source lines 168-182, applied to the materialized cursor
contents.  In pymongo `mdb[collection].aggregate(...)` returns a
`CommandCursor` object, which defines no `__bool__`/`__len__`, so the
source's outer `if results:` guard is always true and its `else` branch
(lines 180-182) is unreachable; the materialized list drives the inner
branches.  Zero documents: log an error, return the empty dict.  More than
one document: log an error — and then the Python function falls off its
end, implicitly returning `None` (modelled by `none`).  Exactly one
document: return `results[0]`. -/
def pick_result (results : List Doc) : Option Doc × List LogRec :=
  if results.length = 0 then
    (some [], [(LogLevel.error, msg_no_results)])
  else if results.length > 1 then
    (none, [(LogLevel.error, msg_multi_results)])
  else
    (some (results.getD 0 []), [])

/-- Model of `get_aggregate` (source lines 162-182): build the stage
sequence, run it against the store, and apply the result-arity policy. -/
def get_aggregate (mdb : MongoDB) (collection id_field minion_id : String)
    (aggregate : List Doc) : Option Doc × List LogRec :=
  let pipeline := build_pipeline id_field minion_id aggregate
  let results := mdb.aggregate collection pipeline
  pick_result results

/-!
Model of the Python `re.sub` call of source line 233.  The source hands the
pattern string to the standard library; here patterns are carried in parsed
form (an abstract syntax tree with alternation ordered and repetition
greedy, as in the Python engine).  `mtch` enumerates the candidate matches
of a pattern against a suffix of the subject in the Python engine's
preference order (first alternative first, longest repetition first), so
its head is the match Python selects; `re_sub` then performs Python's
left-to-right non-overlapping substitution, expanding backreferences in the
replacement template.
-/

/-- Regular-expression abstract syntax: empty language, empty string,
single character, any character, ordered alternation, concatenation,
greedy Kleene star, and a numbered capture group. -/
inductive Regex where
  | emp
  | eps
  | chr : Char → Regex
  | dot
  | alt : Regex → Regex → Regex
  | cat : Regex → Regex → Regex
  | star : Regex → Regex
  | grp : Nat → Regex → Regex

/-- Captured groups: group number paired with captured text (first
occurrence wins on lookup). -/
abbrev Caps := List (Nat × String)

/-- Text consumed between a suffix `cs` of the subject and the remaining
suffix `rest` after a match. -/
def consumed (cs rest : List Char) : String :=
  String.mk (cs.take (cs.length - rest.length))

/-- Greedy iteration of a star body `m`: try a further iteration first
(only iterations that consume input are repeated, as in the Python engine,
which stops repeating on an empty match), then the option of stopping
here.  The fuel bounds the iteration count; since every recorded iteration
consumes at least one character, initial fuel `cs.length` is never
exhausted. -/
def starIter (m : List Char → Caps → List (List Char × Caps)) :
    Nat → List Char → Caps → List (List Char × Caps)
  | 0, cs, caps => [(cs, caps)]
  | fuel + 1, cs, caps =>
    (((m cs caps).map
      (fun p => if p.1.length < cs.length then starIter m fuel p.1 p.2 else [])).flatten)
      ++ [(cs, caps)]

/-- Candidate matches of a pattern at the head of `cs`, as pairs of
remaining input and captures, in the Python engine's preference order
(first alternative first, longest repetition first): the head of the list
is the match Python selects at this position. -/
def mtch : Regex → List Char → Caps → List (List Char × Caps)
  | .emp, _, _ => []
  | .eps, cs, caps => [(cs, caps)]
  | .chr _, [], _ => []
  | .chr c, c2 :: cs, caps => if c2 = c then [(cs, caps)] else []
  | .dot, [], _ => []
  | .dot, _ :: cs, caps => [(cs, caps)]
  | .alt r1 r2, cs, caps => mtch r1 cs caps ++ mtch r2 cs caps
  | .cat r1 r2, cs, caps =>
    ((mtch r1 cs caps).map (fun p => mtch r2 p.1 p.2)).flatten
  | .star r, cs, caps => starIter (mtch r) cs.length cs caps
  | .grp n r, cs, caps =>
    (mtch r cs caps).map (fun p => (p.1, (n, consumed cs p.1) :: p.2))

/-- Look up a capture group by number. -/
def capLookup (caps : Caps) (n : Nat) : Option String :=
  (caps.find? (fun p => p.1 == n)).map (fun p => p.2)

/-- Expansion of the replacement template: `\N` inserts the text of
capture group `N` (empty if absent), `\\` a literal backslash, anything
else is copied verbatim. -/
def expand_template (caps : Caps) : List Char → List Char
  | [] => []
  | '\\' :: rest =>
    match rest with
    | [] => ['\\']
    | c :: rest2 =>
      if c.isDigit then
        ((capLookup caps (c.toNat - 48)).getD ("")).data ++ expand_template caps rest2
      else if c = '\\' then '\\' :: expand_template caps rest2
      else '\\' :: c :: expand_template caps rest2
  | c :: rest => c :: expand_template caps rest

/-- Left-to-right scan of `re.sub`: at each position, replace the match the
engine selects there and resume after it; after an empty match (or no
match) copy one character and advance.  The fuel starts at
`subject.length + 1` and each step advances at least one position, so it is
never exhausted. -/
def subAux (r : Regex) (rep : String) : Nat → List Char → List Char
  | 0, cs => cs
  | _ + 1, [] =>
    match (mtch r [] []).head? with
    | some p => expand_template p.2 rep.data
    | none => []
  | fuel + 1, c :: cs =>
    match (mtch r (c :: cs) []).head? with
    | none => c :: subAux r rep fuel cs
    | some p =>
      if (c :: cs).length - p.1.length = 0 then
        expand_template p.2 rep.data ++ c :: subAux r rep fuel cs
      else
        expand_template p.2 rep.data ++ subAux r rep fuel p.1

/-- Model of Python `re.sub(pattern, repl, string)`. -/
def re_sub (pat : Regex) (rep : String) (s : String) : String :=
  String.mk (subAux pat rep (s.length + 1) s.data)

/-- Decides that a pattern matches at no position of the subject (the
position after the last character included). -/
def matches_nowhere (r : Regex) (s : String) : Bool :=
  s.data.tails.all (fun t => (mtch r t []).isEmpty)

/-- Model of source lines 231-233: `if re_pattern: minion_id =
re.sub(re_pattern, re_replace, minion_id)`.  A `None` pattern — like the
falsy empty pattern string, which has no parsed form — leaves the minion
id untouched. -/
def lookup_id (re_pattern : Option Regex) (re_replace minion_id : String) : String :=
  match re_pattern with
  | some pat => re_sub pat re_replace minion_id
  | none => minion_id

/-- Model of `ext_pillar` (source lines 185-245), the module entry point.
The Python signature defaults are `collection="pillar"`, `id_field="_id"`,
`re_pattern=None`, `re_replace=""`, `fields=None`, `aggregate=None`; the
`pillar` argument is accepted and ignored (source marks it `W0613`).  The
connection/authentication preamble of lines 221-230 is the out-of-scope
bootstrap whose product is the `mdb` handle.  After the optional minion-id
rewrite, dispatch on `aggregate is None` to one of the two strategies. -/
def ext_pillar (mdb : MongoDB) (minion_id : String) (pillar : Doc)
    (collection id_field : String) (re_pattern : Option Regex) (re_replace : String)
    (fields : Option (List String)) (aggregate : Option (List Doc)) :
    Option Doc × List LogRec :=
  let key := lookup_id re_pattern re_replace minion_id
  let l0 : LogRec := (LogLevel.info, msg_looking_up)
  match aggregate with
  | none =>
    let r := get_find_one mdb collection id_field key fields
    (some r.1, l0 :: r.2)
  | some agg =>
    let r := get_aggregate mdb collection id_field key agg
    (r.1, l0 :: r.2)

/-!
Reference model of the external store's `find_one` operation, used to
settle the properties that depend on how mongodb itself answers the query
the module issues.  Modelled from the documented MongoDB/pymongo
semantics (the store is an external collaborator, not code of this
repository): `find_one(filter, projection=fields)` returns the first
stored document whose fields equal every filter entry, and a projection
given as a list of field names is an inclusion projection that always
also includes the `_id` field.
-/

mutual
/-- Structural equality of BSON values (mongo equality match on the
value shapes modelled here). -/
def bvalBeq : BVal → BVal → Bool
  | .str a, .str b => a == b
  | .int a, .int b => a == b
  | .bool a, .bool b => a == b
  | .objectId a, .objectId b => a == b
  | .null, .null => true
  | .doc a, .doc b => docBeq a b
  | .arr a, .arr b => arrBeq a b
  | _, _ => false

/-- Field-by-field equality of documents. -/
def docBeq : List (String × BVal) → List (String × BVal) → Bool
  | [], [] => true
  | (k1, v1) :: t1, (k2, v2) :: t2 => k1 == k2 && bvalBeq v1 v2 && docBeq t1 t2
  | _, _ => false

/-- Element-by-element equality of arrays. -/
def arrBeq : List BVal → List BVal → Bool
  | [], [] => true
  | a :: t1, b :: t2 => bvalBeq a b && arrBeq t1 t2
  | _, _ => false
end

/-- A document matches the filter when every filter entry equals the
document's value at that key. -/
def matches_filter (filter : Doc) (d : Doc) : Bool :=
  filter.all (fun kv =>
    match getField d kv.1 with
    | some v => bvalBeq v kv.2
    | none => false)

/-- Projection of a returned document by a pymongo projection argument: a
list of field names keeps exactly those fields plus `_id` (always included
by an inclusion projection); `None` keeps the whole document. -/
def project (projection : Option (List String)) (d : Doc) : Doc :=
  match projection with
  | none => d
  | some fs => d.filter (fun p => decide (p.1 = ("_id") ∨ p.1 ∈ fs))

/-- The store's `find_one`: first stored document matching the filter, in
natural order, projected; `none` when nothing matches. -/
def mongo_find_one (docs : List Doc) (filter : Doc)
    (projection : Option (List String)) : Option Doc :=
  (docs.find? (matches_filter filter)).map (project projection)

/-- A store handle over concrete per-collection contents, with `find_one`
answered by the reference model and `aggregate` supplied (pipeline stages
beyond the prepended match are opaque to the module, so their semantics
stay a parameter). -/
def db_of (data : String → List Doc) (ag : String → List Doc → List Doc) : MongoDB :=
  ⟨fun c filter proj => mongo_find_one (data c) filter proj, ag⟩

/-- Keys of a document, in order. -/
def dockeys (d : Doc) : List String :=
  d.map (fun p => p.1)

/-!
Concrete stores used as witnesses and counterexamples.
-/

/-- A store whose pipeline aggregation yields two documents. -/
def multiStore : MongoDB :=
  ⟨fun _ _ _ => none, fun _ _ => [[(("x"), BVal.int 1)], [(("x"), BVal.int 2)]]⟩

/-- A store whose pipeline aggregation yields exactly one document. -/
def singleStore : MongoDB :=
  ⟨fun _ _ _ => none, fun _ _ => [[(("x"), BVal.int 1)]]⟩

/-- A store with no matching documents at all. -/
def emptyStore : MongoDB :=
  ⟨fun _ _ _ => none, fun _ _ => []⟩

/-- A store whose pipeline aggregation yields one document carrying a
native `ObjectId` under `_id`. -/
def oidAggStore : MongoDB :=
  ⟨fun _ _ _ => none, fun _ _ => [[(("_id"), BVal.objectId ("507f1f77bcf86cd799439011"))]]⟩

/-- A single-document store whose lookup answers with a document keyed by
`name` and carrying a native `ObjectId`. -/
def oidFindStore : MongoDB :=
  ⟨fun _ _ _ => some [(("_id"), BVal.objectId ("507f1f77bcf86cd799439011")),
                      (("role"), BVal.str ("web"))],
   fun _ _ => []⟩

/-- A single-document store answering with a document that has no `_id`
key. -/
def noIdFindStore : MongoDB :=
  ⟨fun _ _ _ => some [(("role"), BVal.str ("web"))], fun _ _ => []⟩

/-- Contents of the `vm` collection of the projection examples: one
document with identifier, name and three data fields. -/
def vmData : String → List Doc :=
  fun c =>
    if c = ("vm") then
      [[(("_id"), BVal.objectId ("507f1f77bcf86cd799439011")),
        (("name"), BVal.str ("web1")),
        (("a"), BVal.int 1),
        (("b"), BVal.int 2),
        (("c"), BVal.int 3)]]
    else []

/-- Store over `vmData` with an inert aggregation. -/
def vmStore : MongoDB :=
  db_of vmData (fun _ _ => [])

/-!
Helper lemmas.
-/

/-- Appending elements one by one via a left fold concatenates them onto
the initial list. -/
theorem foldl_push_eq {α : Type} (l : List α) (init : List α) :
    l.foldl (fun acc x => acc ++ [x]) init = init ++ l := by
  induction l generalizing init with
  | nil => simp
  | cons x t ih => simp [List.foldl_cons, ih]

/-- The built pipeline is the match stage consed onto the caller stages. -/
theorem build_pipeline_eq (idf key : String) (agg : List Doc) :
    build_pipeline idf key agg = match_stage idf key :: agg := by
  simpa [build_pipeline] using foldl_push_eq agg [match_stage idf key]

/-- Converting the identifier does not change the key sequence. -/
theorem dockeys_convert_id (d : Doc) : dockeys (convert_id d) = dockeys d := by
  induction d with
  | nil => rfl
  | cons p t ih =>
    by_cases h : p.1 = ("_id") <;> simp [convert_id, dockeys, h] at ih ⊢ <;> exact ih

/-- Reading the identifier after conversion yields the text form of the
value read before conversion. -/
theorem getField_convert_id (d : Doc) :
    getField (convert_id d) ("_id") =
      (getField d ("_id")).map (fun w => BVal.str (text_type w)) := by
  induction d with
  | nil => rfl
  | cons p t ih =>
    by_cases h : p.1 = ("_id") <;>
      simp [convert_id, getField, List.find?_cons, h] at ih ⊢
    · exact ih

/-- A key that the membership test rejects is absent from the lookup. -/
theorem getField_eq_none_of_hasKey_false (d : Doc) (k : String)
    (h : hasKey d k = false) : getField d k = none := by
  induction d with
  | nil => rfl
  | cons p t _ =>
    simp [hasKey, List.any_cons] at h
    simp [getField, List.find?_cons, h.1]
    exact h.2

/-- Membership in the keys of a projected document is bounded by the
projection list plus the identifier field. -/
theorem mem_dockeys_project (fs : List String) (d : Doc) (k : String)
    (h : k ∈ dockeys (project (some fs) d)) : k = ("_id") ∨ k ∈ fs := by
  simp [dockeys, project, List.mem_map, List.mem_filter] at h
  exact h.2

/-- Substitution scan over a subject in which the pattern matches at no
position (no suffix admits a match) copies the subject unchanged. -/
theorem subAux_no_match (r : Regex) (rep : String) (fuel : Nat) :
    ∀ cs : List Char, (∀ t ∈ cs.tails, mtch r t [] = []) → subAux r rep fuel cs = cs := by
  induction fuel with
  | zero => intro cs _; rfl
  | succ n ih =>
    intro cs h
    cases cs with
    | nil =>
      have h0 : mtch r [] [] = [] := h [] (by simp)
      simp [subAux, h0]
    | cons c t =>
      have h0 : mtch r (c :: t) [] = [] := h (c :: t) (by simp [List.tails_cons])
      have ht : ∀ u ∈ t.tails, mtch r u [] = [] := by
        intro u hu
        exact h u (by simp [List.tails_cons, hu])
      simp [subAux, h0, ih t ht]

/-!
Claim theorems.
-/

/-- C1, counterexample: on an aggregation yielding the two documents
`[{x: 1}, {x: 2}]`, `ext_pillar` does not return the first document — it
returns `None` — and emits no warning-level diagnostic (the diagnostic it
does emit is error-level). -/
theorem pipeline_two_results_counterexample :
    (ext_pillar multiStore ("m1") [] ("pillar") ("_id") none ("") none (some [])).1 = none ∧
    (ext_pillar multiStore ("m1") [] ("pillar") ("_id") none ("") none (some [])).1 ≠
      some [(("x"), BVal.int 1)] ∧
    (ext_pillar multiStore ("m1") [] ("pillar") ("_id") none ("") none (some [])).2.all
      (fun l => l.1 != LogLevel.warning) = true ∧
    (LogLevel.error, msg_multi_results) ∈
      (ext_pillar multiStore ("m1") [] ("pillar") ("_id") none ("") none (some [])).2 :=
  ⟨rfl, fun h => Option.noConfusion h, rfl, by simp [ext_pillar, multiStore, get_aggregate, pick_result]⟩

/-- C1, amended: for every pipeline-strategy resolution whose aggregation
yields more than one document, `ext_pillar` returns a null/absent value
(the Python function falls off its end, returning `None`) — not the first
document and not an error raise — while emitting an error-level
diagnostic. -/
theorem pipeline_multi_result_policy (mdb : MongoDB) (id : String) (pil : Doc)
    (c idf : String) (pat : Option Regex) (rep : String) (fields : Option (List String))
    (agg : List Doc) :
    1 < (mdb.aggregate c (build_pipeline idf (lookup_id pat rep id) agg)).length →
    (ext_pillar mdb id pil c idf pat rep fields (some agg)).1 = none ∧
    (LogLevel.error, msg_multi_results) ∈
      (ext_pillar mdb id pil c idf pat rep fields (some agg)).2 := by
  intro h
  have h0 : ¬ (mdb.aggregate c (build_pipeline idf (lookup_id pat rep id) agg)).length = 0 := by
    omega
  constructor <;> simp [ext_pillar, get_aggregate, pick_result, h, h0]

/-- C1, witness for the amended statement at the two-document store. -/
theorem pipeline_multi_result_policy_witness :
    (ext_pillar multiStore ("m2") [] ("pillar") ("_id") none ("") none (some [])).1 = none ∧
    (LogLevel.error, msg_multi_results) ∈
      (ext_pillar multiStore ("m2") [] ("pillar") ("_id") none ("") none (some [])).2 :=
  pipeline_multi_result_policy multiStore ("m2") [] ("pillar") ("_id") none ("") none []
    (by decide)

/-- C2, counterexample: a pipeline-strategy resolution returns a document
whose `_id` field still carries the opaque native identifier value — no
text conversion is applied on that path. -/
theorem id_text_invariant_counterexample :
    (ext_pillar oidAggStore ("m1") [] ("pillar") ("_id") none ("") none (some [])).1 =
      some [(("_id"), BVal.objectId ("507f1f77bcf86cd799439011"))] ∧
    getField ((ext_pillar oidAggStore ("m1") [] ("pillar") ("_id") none ("") none
      (some [])).1.getD []) ("_id") = some (BVal.objectId ("507f1f77bcf86cd799439011")) ∧
    is_text (BVal.objectId ("507f1f77bcf86cd799439011")) = false :=
  ⟨rfl, rfl, rfl⟩

/-- C2, amended: in the single-document strategy (the pipeline strategy
applies no conversion), any top-level `_id` field present in the returned
mapping is represented as text. -/
theorem find_one_id_field_is_text (mdb : MongoDB) (id : String) (pil : Doc)
    (c idf : String) (pat : Option Regex) (rep : String) (fields : Option (List String))
    (v : BVal) :
    getField ((ext_pillar mdb id pil c idf pat rep fields none).1.getD []) ("_id") = some v →
    is_text v = true := by
  intro h
  have h1 : getField (get_find_one mdb c idf (lookup_id pat rep id) fields).1 ("_id") =
      some v := h
  unfold get_find_one at h1
  cases hr : mdb.find_one c [(idf, BVal.str (lookup_id pat rep id))] fields with
  | none => rw [hr] at h1; simp [dict_truthy, getField] at h1
  | some d =>
    rw [hr] at h1
    by_cases he : d.isEmpty
    · simp [dict_truthy, he, getField] at h1
    · by_cases hk : hasKey d ("_id")
      · simp [dict_truthy, he, hk, getField_convert_id] at h1
        obtain ⟨w, -, hw⟩ := h1
        rw [← hw]
        rfl
      · simp [dict_truthy, he, hk, getField_eq_none_of_hasKey_false d ("_id") (by simpa using hk)]
          at h1

/-- C2, witness for the amended statement: a stored `ObjectId` surfaces as
its hex text. -/
theorem find_one_id_field_is_text_witness :
    is_text (BVal.str ("507f1f77bcf86cd799439011")) = true :=
  find_one_id_field_is_text oidFindStore ("m1") [] ("pillar") ("name") none ("")
    (some [("role")]) (BVal.str ("507f1f77bcf86cd799439011")) rfl

/-- C3: for every resolution in which the store yields zero matching
documents — under either the single-document strategy or the pipeline
strategy — the result is an empty mapping and no error is raised to the
caller. -/
theorem zero_matches_empty_mapping (mdb : MongoDB) (id : String) (pil : Doc)
    (c idf : String) (pat : Option Regex) (rep : String) (fields : Option (List String))
    (agg : List Doc) :
    (mdb.find_one c [(idf, BVal.str (lookup_id pat rep id))] fields = none →
      (ext_pillar mdb id pil c idf pat rep fields none).1 = some []) ∧
    (mdb.aggregate c (build_pipeline idf (lookup_id pat rep id) agg) = [] →
      (ext_pillar mdb id pil c idf pat rep fields (some agg)).1 = some []) := by
  constructor
  · intro h
    simp [ext_pillar, get_find_one, h, dict_truthy]
  · intro h
    simp [ext_pillar, get_aggregate, h, pick_result]

/-- C3, witness at the store with no matching documents. -/
theorem zero_matches_empty_mapping_witness :
    (ext_pillar emptyStore ("m1") [] ("pillar") ("_id") none ("") none none).1 = some [] ∧
    (ext_pillar emptyStore ("m1") [] ("pillar") ("_id") none ("") none (some [])).1 = some [] :=
  ⟨(zero_matches_empty_mapping emptyStore ("m1") [] ("pillar") ("_id") none ("") none []).1 rfl,
   (zero_matches_empty_mapping emptyStore ("m1") [] ("pillar") ("_id") none ("") none []).2 rfl⟩

/-- C4: when both `fields` and `aggregate` are supplied, `fields` has no
effect: the resolution follows the pipeline strategy and the whole result
(value and diagnostics) equals the result with `fields` absent. -/
theorem fields_ignored_under_aggregate (mdb : MongoDB) (id : String) (pil : Doc)
    (c idf : String) (pat : Option Regex) (rep : String) (fields : Option (List String))
    (agg : List Doc) :
    ext_pillar mdb id pil c idf pat rep fields (some agg) =
      ext_pillar mdb id pil c idf pat rep none (some agg) ∧
    (ext_pillar mdb id pil c idf pat rep fields (some agg)).1 =
      (get_aggregate mdb c idf (lookup_id pat rep id) agg).1 :=
  ⟨rfl, rfl⟩

/-- C5: with `re_pattern` absent the lookup key used against the store is
the minion id unchanged; with a pattern present the key is the `re.sub`
substitution of the pattern by `re_replace` (backreferences expanded by
the template); a pattern matching nowhere leaves the minion id unchanged;
and `ext_pillar` queries the store at exactly that key. -/
theorem lookup_key_resolution :
    (∀ rep id, lookup_id none rep id = id) ∧
    (∀ pat rep id, lookup_id (some pat) rep id = re_sub pat rep id) ∧
    (∀ (pat : Regex) (rep id : String), matches_nowhere pat id = true →
      lookup_id (some pat) rep id = id) ∧
    (∀ (mdb : MongoDB) (id : String) (pil : Doc) (c idf rep : String) (pat : Option Regex)
      (fields : Option (List String)),
      (ext_pillar mdb id pil c idf pat rep fields none).1 =
        some (get_find_one mdb c idf (lookup_id pat rep id) fields).1) := by
  refine ⟨fun rep id => rfl, fun pat rep id => rfl, ?_,
    fun mdb id pil c idf rep pat fields => rfl⟩
  intro pat rep id h
  show re_sub pat rep id = id
  have h1 : ∀ t ∈ id.data.tails, mtch pat t [] = [] := by
    intro t ht
    have h2 := (List.all_eq_true.mp h) t ht
    exact List.isEmpty_iff.mp h2
  unfold re_sub
  rw [subAux_no_match pat rep (id.length + 1) id.data h1]

/-- C5, witness: identity with an absent pattern, and a nowhere-matching
pattern (the literal `xy`) leaving the minion id untouched. -/
theorem lookup_key_resolution_witness :
    lookup_id none ("") ("web1.example.com") = ("web1.example.com") ∧
    lookup_id (some (Regex.cat (Regex.chr 'x') (Regex.chr 'y'))) ("") ("web1") = ("web1") :=
  ⟨lookup_key_resolution.1 ("") ("web1.example.com"),
   lookup_key_resolution.2.2.1 (Regex.cat (Regex.chr 'x') (Regex.chr 'y')) ("") ("web1")
     (by decide)⟩

/-- C6: the stage sequence `get_aggregate` executes against the store is
exactly the implicit match stage `{id_field: lookupKey}` followed by every
caller-supplied stage in the caller-supplied order, with nothing
reordered, dropped, deduplicated, or altered. -/
theorem pipeline_stage_sequence (idf key : String) (agg : List Doc) (mdb : MongoDB)
    (c : String) :
    build_pipeline idf key agg =
      [(("$match"), BVal.doc [(idf, BVal.str key)])] :: agg ∧
    get_aggregate mdb c idf key agg =
      pick_result (mdb.aggregate c ([(("$match"), BVal.doc [(idf, BVal.str key)])] :: agg)) := by
  have h := build_pipeline_eq idf key agg
  exact ⟨h, by rw [get_aggregate, h]; rfl⟩

/-- C7: for every pipeline-strategy resolution whose aggregation yields
exactly one document, that document is returned as the result. -/
theorem single_pipeline_result_returned (mdb : MongoDB) (id : String) (pil : Doc)
    (c idf : String) (pat : Option Regex) (rep : String) (fields : Option (List String))
    (agg : List Doc) (d : Doc) :
    mdb.aggregate c (build_pipeline idf (lookup_id pat rep id) agg) = [d] →
    (ext_pillar mdb id pil c idf pat rep fields (some agg)).1 = some d := by
  intro h
  simp [ext_pillar, get_aggregate, h, pick_result]

/-- C7, witness: a pipeline producing exactly `{x: 1}` resolves to
`{x: 1}`. -/
theorem single_pipeline_result_returned_witness :
    (ext_pillar singleStore ("m1") [] ("pillar") ("_id") none ("") none (some [])).1 =
      some [(("x"), BVal.int 1)] :=
  single_pipeline_result_returned singleStore ("m1") [] ("pillar") ("_id") none ("") none []
    [(("x"), BVal.int 1)] rfl

/-- C8, counterexample: with `fields = [a, b]` against a stored document
`{_id, name, a, b, c}`, the returned mapping also contains the key `_id`
(inclusion projections always include it), so it does not contain only the
keys `a` and `b`. -/
theorem projection_only_listed_keys_counterexample :
    dockeys ((ext_pillar vmStore ("web1") [] ("vm") ("name") none ("")
      (some [("a"), ("b")]) none).1.getD []) = [("_id"), ("a"), ("b")] ∧
    ¬ (∀ k ∈ dockeys ((ext_pillar vmStore ("web1") [] ("vm") ("name") none ("")
      (some [("a"), ("b")]) none).1.getD []), k = ("a") ∨ k = ("b")) := by
  refine ⟨by decide, ?_⟩
  intro h
  have := h ("_id") (by decide)
  simp at this

/-- C8, amended: in the single-document strategy with a field projection,
every key of the returned mapping is either a listed field or the store's
`_id` field (which an inclusion projection always keeps when the stored
document has it). -/
theorem projection_keys_bound (data : String → List Doc) (ag : String → List Doc → List Doc)
    (id : String) (pil : Doc) (c idf : String) (pat : Option Regex) (rep : String)
    (fs : List String) (k : String) :
    k ∈ dockeys ((ext_pillar (db_of data ag) id pil c idf pat rep (some fs) none).1.getD []) →
    k = ("_id") ∨ k ∈ fs := by
  intro hk
  have h1 : k ∈ dockeys (get_find_one (db_of data ag) c idf (lookup_id pat rep id)
      (some fs)).1 := hk
  unfold get_find_one at h1
  cases hf : (data c).find?
      (matches_filter [(idf, BVal.str (lookup_id pat rep id))]) with
  | none =>
    rw [show (db_of data ag).find_one c [(idf, BVal.str (lookup_id pat rep id))] (some fs) =
      ((data c).find? (matches_filter [(idf, BVal.str (lookup_id pat rep id))])).map
        (project (some fs)) from rfl, hf] at h1
    simp [dict_truthy, dockeys] at h1
  | some d =>
    rw [show (db_of data ag).find_one c [(idf, BVal.str (lookup_id pat rep id))] (some fs) =
      ((data c).find? (matches_filter [(idf, BVal.str (lookup_id pat rep id))])).map
        (project (some fs)) from rfl, hf] at h1
    simp only [Option.map_some', Option.getD_some] at h1
    by_cases he : (project (some fs) d).isEmpty
    · rw [if_neg (by simp [dict_truthy, he])] at h1
      simp [dockeys] at h1
    · rw [if_pos (by simp [dict_truthy, he])] at h1
      split at h1
      · rw [dockeys_convert_id] at h1
        exact mem_dockeys_project fs d k h1
      · exact mem_dockeys_project fs d k h1

/-- C8, witness for the amended statement: the `_id` key that the `vm`
example returns is within the allowed key set. -/
theorem projection_keys_bound_witness :
    ("_id") ∈ dockeys ((ext_pillar (db_of vmData (fun _ _ => [])) ("web1") [] ("vm")
      ("name") none ("") (some [("a"), ("b")]) none).1.getD []) ∧
    (("_id") = ("_id") ∨ ("_id") ∈ [("a"), ("b")]) :=
  ⟨by decide,
   projection_keys_bound vmData (fun _ _ => []) ("web1") [] ("vm") ("name") none ("")
     [("a"), ("b")] ("_id") (by decide)⟩

/-- C9: the returned value of `ext_pillar` never depends on the incoming
`pillar` argument — two calls identical except for it agree exactly. -/
theorem pillar_argument_irrelevant (mdb : MongoDB) (id : String) (p1 p2 : Doc)
    (c idf : String) (pat : Option Regex) (rep : String) (fields : Option (List String))
    (agg : Option (List Doc)) :
    ext_pillar mdb id p1 c idf pat rep fields agg =
      ext_pillar mdb id p2 c idf pat rep fields agg :=
  rfl

/-- C10: in the single-document strategy the `_id`-to-text conversion is
applied exactly when the returned document contains a key named `_id` —
whatever the projection and whatever `id_field` — and a returned document
without an `_id` key is passed through unchanged. -/
theorem find_one_id_conversion_cases (mdb : MongoDB) (c idf mid : String)
    (fields : Option (List String)) (d : Doc) :
    mdb.find_one c [(idf, BVal.str mid)] fields = some d →
    (hasKey d ("_id") = true → (get_find_one mdb c idf mid fields).1 = convert_id d) ∧
    (hasKey d ("_id") = false → (get_find_one mdb c idf mid fields).1 = d) := by
  intro h
  constructor
  · intro hk
    have hne : d.isEmpty = false := by
      cases d with
      | nil => simp [hasKey] at hk
      | cons p t => rfl
    simp [get_find_one, h, dict_truthy, hne, hk]
  · intro hk
    by_cases he : d.isEmpty
    · have hd : d = [] := List.isEmpty_iff.mp he
      subst hd
      simp [get_find_one, h, dict_truthy]
    · simp [get_find_one, h, dict_truthy, he, hk]

/-- C10, witness: conversion fires under a projection with `id_field`
distinct from `_id`, and a document lacking `_id` is returned as-is. -/
theorem find_one_id_conversion_cases_witness :
    (get_find_one oidFindStore ("pillar") ("name") ("m1") (some [("role")])).1 =
      convert_id [(("_id"), BVal.objectId ("507f1f77bcf86cd799439011")),
                  (("role"), BVal.str ("web"))] ∧
    (get_find_one noIdFindStore ("pillar") ("_id") ("m1") none).1 =
      [(("role"), BVal.str ("web"))] :=
  ⟨(find_one_id_conversion_cases oidFindStore ("pillar") ("name") ("m1") (some [("role")])
      [(("_id"), BVal.objectId ("507f1f77bcf86cd799439011")), (("role"), BVal.str ("web"))]
      rfl).1 rfl,
   (find_one_id_conversion_cases noIdFindStore ("pillar") ("_id") ("m1") none
      [(("role"), BVal.str ("web"))] rfl).2 rfl⟩

end SaltPillarMongo
